import Mathlib

/-!
Shallow embedding of the graph analytics and fraud-explanation engine of the
ITS-RSBP-FP repository (FastAPI + Neo4j).  The graph store is modelled as an
explicit property-graph state; each Cypher query run by the source is
translated into a Lean function on that state.  Read-only queries (MATCH ..
RETURN) return the state unchanged, which is their Neo4j semantics; only the
GDS pipeline (CALL gds.*.write / graph.project / graph.drop) mutates state.

Sources embedded:
  - src/app/services/fraud_rules.py   (FraudRules: detect_fan_in,
    detect_circular_flow, get_gds_scores, explain_fraud)
  - src/app/services/graph_service.py (GraphService.run_gds_pipeline)
  - src/app/routers/investigation.py  (POST /investigation/run-gds endpoint)
-/

namespace FraudGraph

/-- A node of the property graph.  Neo4j nodes have an internal identity
(`key` here), a set of labels, and properties.  The properties used by the
source are the `id` string and the three analytics-written numeric
properties `communityId`, `rankScore` and `pagerankScore` (each absent until
written; PageRank scores are abstracted from float to Int since no claim
computes with them numerically). -/
structure NodeRec where
  key : Nat
  labels : List String
  id : Option String
  communityId : Option Int
  rankScore : Option Int
  pagerankScore : Option Int
deriving Repr, DecidableEq

/-- A relationship (edge) of the property graph.  `relType` is the Neo4j
relationship type (the source uses two divergent schemas: the detectors
query `TRANSACTION` edges keyed by property `id`, while `explain_fraud` and
`get_gds_scores` query `TRANSACTED` edges keyed by property `txId`).
`timestamp` is in minutes (the fan-in window arithmetic is minute-based).
`txType` embeds the `type` property.  `isFraud` is the PaySim 0/1
ground-truth flag, possibly unset; `ruleFlaggedFraud` a possibly-unset
boolean. -/
structure EdgeRec where
  relType : String
  src : Nat
  dst : Nat
  id : Option String
  txId : Option String
  timestamp : Int
  amount : Option Int
  txType : Option String
  step : Option Int
  isFraud : Option Int
  ruleFlaggedFraud : Option Bool
deriving Repr, DecidableEq

/-- The state of the graph store: nodes, relationships, and the set of
currently existing GDS in-memory projections (by name). -/
structure GraphState where
  nodes : List NodeRec
  edges : List EdgeRec
  projections : List String
deriving Repr, DecidableEq

/-- Look up a node by its internal identity. -/
def findNode (st : GraphState) (k : Nat) : Option NodeRec :=
  st.nodes.find? (fun nd => nd.key == k)

/-- Whether the node with identity `k` exists and carries label `l`. -/
def nodeHasLabel (st : GraphState) (k : Nat) (l : String) : Bool :=
  match findNode st k with
  | some nd => nd.labels.contains l
  | none => false

/-- Predicate of the Cypher pattern
`(s:Client)-[t:TRANSACTED {txId: $txId}]->(r:Client)` used by
`get_gds_scores` and `explain_fraud`. -/
def isTransactedFor (st : GraphState) (txId : String) (e : EdgeRec) : Bool :=
  e.relType == "TRANSACTED" && e.txId == some txId
    && nodeHasLabel st e.src "Client" && nodeHasLabel st e.dst "Client"

/-- `result.single()` over that pattern: the first matching record, if any
(the Python driver returns the first record and None when there is none). -/
def lookupTransacted (st : GraphState) (txId : String) : Option EdgeRec :=
  st.edges.find? (isTransactedFor st txId)

/-- Predicate of the Cypher pattern
`(sender:Account)-[current_tx:TRANSACTION {id: $tx_id}]->(receiver:Account)`
used by both pattern detectors. -/
def isTransactionFor (st : GraphState) (txId : String) (e : EdgeRec) : Bool :=
  e.relType == "TRANSACTION" && e.id == some txId
    && nodeHasLabel st e.src "Account" && nodeHasLabel st e.dst "Account"

/-- First record of that pattern, if any. -/
def lookupTransaction (st : GraphState) (txId : String) : Option EdgeRec :=
  st.edges.find? (isTransactionFor st txId)

/-- A value in the `gds_scores` block: Neo4j returns the stored number, or
null for an absent property; the sentinel stores the string `N/A`. -/
inductive GdsVal where
  | int (n : Int)
  | str (s : String)
  | null
deriving Repr, DecidableEq

/-- An absent property reads back as null, a present one as its number. -/
def toGdsVal : Option Int → GdsVal
  | some n => GdsVal.int n
  | none => GdsVal.null

/-- The score block returned by `get_gds_scores`. -/
structure GdsScores where
  sender_rank : GdsVal
  sender_community : GdsVal
  receiver_rank : GdsVal
  receiver_community : GdsVal
deriving Repr, DecidableEq

/-- The sentinel score block of `get_gds_scores` (returned when the
transaction pattern has no match). -/
def gdsSentinel : GdsScores :=
  { sender_rank := GdsVal.int 0
    receiver_rank := GdsVal.int 0
    sender_community := GdsVal.str "N/A"
    receiver_community := GdsVal.str "N/A" }

/-- The record of the `get_gds_scores` query: for the matched TRANSACTED
edge it returns `s.pagerankScore, s.communityId, r.pagerankScore,
r.communityId` (note: the property read for the ranks is `pagerankScore`,
as written in the source, not the `rankScore` property the pipeline
writes). -/
def gdsRecord (st : GraphState) (txId : String) : Option GdsScores :=
  match lookupTransacted st txId with
  | none => none
  | some e =>
    match findNode st e.src, findNode st e.dst with
    | some sn, some rn =>
      some { sender_rank := toGdsVal sn.pagerankScore
             sender_community := toGdsVal sn.communityId
             receiver_rank := toGdsVal rn.pagerankScore
             receiver_community := toGdsVal rn.communityId }
    | _, _ => none

/-- `FraudRules.get_gds_scores`: the matched record as a dict, else the
sentinel.  Read-only query: the state is returned unchanged. -/
def getGdsScores (st : GraphState) (txId : String) : GdsScores × GraphState :=
  match gdsRecord st txId with
  | some g => (g, st)
  | none => (gdsSentinel, st)

/-- `dict(record)` of the `explain_fraud` lookup query: sender and receiver
ids, the edge properties, and `coalesce(t.ruleFlaggedFraud, false)`. -/
structure TxRecord where
  sender : Option String
  receiver : Option String
  amount : Option Int
  txType : Option String
  step : Option Int
  isFraud : Option Int
  ruleFlaggedFraud : Bool
deriving Repr, DecidableEq

/-- Build the `explain_fraud` record from a matched TRANSACTED edge. -/
def mkTxRecord (st : GraphState) (e : EdgeRec) : TxRecord :=
  { sender := (findNode st e.src).bind NodeRec.id
    receiver := (findNode st e.dst).bind NodeRec.id
    amount := e.amount
    txType := e.txType
    step := e.step
    isFraud := e.isFraud
    ruleFlaggedFraud := e.ruleFlaggedFraud.getD false }

/-- The value object returned by `explain_fraud`.  `data := none` models the
NOT_FOUND dict, which has no `data` key; `gds_scores := none` models its
empty `{}` score block. -/
structure FraudExplanation where
  status : String
  explanation : String
  data : Option TxRecord
  gds_scores : Option GdsScores
deriving Repr, DecidableEq

/-- `FraudRules.explain_fraud`: look up the TRANSACTED edge by txId; if
absent return the NOT_FOUND result; otherwise fetch the GDS scores and
return FRAUD when `record[isFraud] == 1 or record[ruleFlaggedFraud]`, else
CLEARED.  Read-only path: the state is threaded through unchanged. -/
def explainFraud (st : GraphState) (txId : String) : FraudExplanation × GraphState :=
  match lookupTransacted st txId with
  | none =>
    ({ status := "NOT_FOUND"
       explanation := "Transaction ID not found in graph."
       data := none
       gds_scores := none }, st)
  | some e =>
    let gp := getGdsScores st txId
    let rec0 := mkTxRecord st e
    if rec0.isFraud == some 1 || rec0.ruleFlaggedFraud then
      ({ status := "FRAUD"
         explanation := "Transaction matches fraud indicators."
         data := some rec0
         gds_scores := some gp.1 }, gp.2)
    else
      ({ status := "CLEARED"
         explanation := "No specific fraud patterns detected."
         data := some rec0
         gds_scores := some gp.1 }, gp.2)

/-- Predicate of the second MATCH of `detect_fan_in`:
`(other_sender:Account)-[t:TRANSACTION]->(receiver)` with
`t.timestamp >= current_tx.timestamp - duration({minutes: w})` and
`t.timestamp <= current_tx.timestamp` (both bounds inclusive). -/
def fanInWindowEdge (st : GraphState) (receiver : Nat) (t0 : Int) (w : Nat)
    (t : EdgeRec) : Bool :=
  t.relType == "TRANSACTION" && t.dst == receiver
    && nodeHasLabel st t.src "Account"
    && decide (t0 - (w : Int) ≤ t.timestamp) && decide (t.timestamp ≤ t0)

/-- `count(distinct other_sender)`: the matching edges, mapped to their
sender node identities, with duplicates removed. -/
def fanInSenders (st : GraphState) (receiver : Nat) (t0 : Int) (w : Nat) : List Nat :=
  ((st.edges.filter (fanInWindowEdge st receiver t0 w)).map EdgeRec.src).dedup

/-- The f-string of the fan-in alert. -/
def fanInMsg (n w : Nat) : String :=
  "Fan-In Alert: Receiver got funds from " ++ toString n
    ++ " distinct senders in " ++ toString w ++ " mins."

/-- `FraudRules.detect_fan_in` (Python defaults: minSenders = 5, w = 60):
locate the current transaction; count distinct senders into its receiver
within the window; alert when that count is strictly greater than
`minSenders`, else None.  Read-only. -/
def detectFanIn (st : GraphState) (txId : String) (minSenders w : Nat) :
    Option String × GraphState :=
  match lookupTransaction st txId with
  | none => (none, st)
  | some e =>
    let n := (fanInSenders st e.dst e.timestamp w).length
    if minSenders < n then (some (fanInMsg n w), st) else (none, st)

/-- The set of distinct senders counted by the fan-in query, as a Finset
(the mathematical `number of distinct senders` is its card). -/
def fanInSenderSet (st : GraphState) (receiver : Nat) (t0 : Int) (w : Nat) : Finset Nat :=
  ((st.edges.filter (fanInWindowEdge st receiver t0 w)).map EdgeRec.src).toFinset

/-- One expansion step of the variable-length pattern
`-[:TRANSACTION*]->`: all nodes reachable from `froms` by one TRANSACTION
edge. -/
def stepRel (st : GraphState) (froms : List Nat) : List Nat :=
  ((st.edges.filter
      (fun t => t.relType == "TRANSACTION" && decide (t.src ∈ froms))).map
    EdgeRec.dst).dedup

/-- Endpoints of TRANSACTION walks of exactly `L` steps from `b`. -/
def reachAfter (st : GraphState) (b : Nat) : Nat → List Nat
  | 0 => [b]
  | k + 1 => stepRel st (reachAfter st b k)

/-- Length of the path found by `MATCH path = (b)-[:TRANSACTION*1..4]->(a)
... LIMIT 1`.  The source takes an unspecified single witness; the
embedding deterministically takes the shortest length, which is the length
of some matching path exactly when any matching path exists (a shortest
walk repeats no relationship, so it is also a valid Cypher path). -/
def cyclePathLen (st : GraphState) (b a : Nat) : Option Nat :=
  if a ∈ reachAfter st b 1 then some 1
  else if a ∈ reachAfter st b 2 then some 2
  else if a ∈ reachAfter st b 3 then some 3
  else if a ∈ reachAfter st b 4 then some 4
  else none

/-- The f-string of the circular-flow alert. -/
def circularMsg (n : Nat) : String :=
  "Circular Flow Alert: Cycle of length " ++ toString n
    ++ " detected involving this transaction."

/-- `FraudRules.detect_circular_flow`: locate the current transaction
`(a)-[t:TRANSACTION {id}]->(b)`; if a TRANSACTION path of 1..4 hops leads
from `b` back to `a`, alert with cycle length = path length + 1, else
None.  Read-only. -/
def detectCircularFlow (st : GraphState) (txId : String) :
    Option String × GraphState :=
  match lookupTransaction st txId with
  | none => (none, st)
  | some e =>
    match cyclePathLen st e.dst e.src with
    | some l => (some (circularMsg (l + 1)), st)
    | none => (none, st)

/-- A single TRANSACTION edge from `x` to `y` exists in the store. -/
def transStep (st : GraphState) (x y : Nat) : Prop :=
  ∃ e, e ∈ st.edges ∧ e.relType = "TRANSACTION" ∧ e.src = x ∧ e.dst = y

/-- Specification-side notion of a directed TRANSACTION walk of length `L`
from one node to another (built back-to-front, matching `reachAfter`). -/
inductive Walk (st : GraphState) : Nat → Nat → Nat → Prop where
  | nil (x : Nat) : Walk st x x 0
  | snoc {x y z : Nat} {L : Nat} :
      Walk st x y L → transStep st y z → Walk st x z (L + 1)

/-- The GDS procedure calls issued by `GraphService.run_gds_pipeline`, with
the arguments the source passes. -/
inductive GdsCall where
  | drop (graphName : String) (failIfMissing : Bool)
  | project (graphName nodeProjection relProjection : String)
      (relationshipProperties : List String)
  | louvainWrite (graphName writeProperty : String)
  | pagerankWrite (graphName : String) (maxIterations : Nat)
      (dampingFactor : Rat) (writeProperty : String)
deriving Repr, DecidableEq

/-- Write an analytics value to a node under the given write-property name
(the name routes to the matching stored property; an unknown name writes
nothing the readers look at). -/
def writeNodeProp (wp : String) (v : Int) (nd : NodeRec) : NodeRec :=
  if wp == "communityId" then { nd with communityId := some v }
  else if wp == "rankScore" then { nd with rankScore := some v }
  else if wp == "pagerankScore" then { nd with pagerankScore := some v }
  else nd

/-- State effect of a successful GDS call.  `lv` and `pr` abstract the
externally computed Louvain community and PageRank score per node; the
projection of the source spans all nodes (node projection `*`), so the
write procedures write every node. -/
def execCall (lv pr : Nat → Int) (st : GraphState) : GdsCall → GraphState
  | GdsCall.drop n _ => { st with projections := st.projections.erase n }
  | GdsCall.project n _ _ _ => { st with projections := n :: st.projections }
  | GdsCall.louvainWrite _ wp =>
    { st with nodes := st.nodes.map (fun nd => writeNodeProp wp (lv nd.key) nd) }
  | GdsCall.pagerankWrite _ _ _ wp =>
    { st with nodes := st.nodes.map (fun nd => writeNodeProp wp (pr nd.key) nd) }

/-- The exception a failed pipeline step raises: it identifies the failing
call (in Python, the exception propagates from the very `session.run` of
that statement) and carries the store message. -/
structure GdsError where
  failedCall : GdsCall
  message : String
deriving Repr, DecidableEq

/-- Whether a call fails: either the store fails it (`storeFail` models
transport or server errors), or it is a `gds.graph.drop` with
failIfMissing = true on a projection that does not exist (with the
source's `false` second argument a missing projection is not an error). -/
def callError (st : GraphState) (storeFail : GdsCall → Option String)
    (c : GdsCall) : Option String :=
  match storeFail c with
  | some m => some m
  | none =>
    match c with
    | GdsCall.drop n fim =>
      if fim && !(st.projections.contains n) then some "Graph does not exist." else none
    | _ => none

/-- Run a list of GDS calls sequentially: each `session.run` either raises
(stopping the run, leaving the state as already committed) or commits its
effect.  Returns the trace of calls actually issued, the final state, and
the raised error if any. -/
def runCalls (storeFail : GdsCall → Option String) (lv pr : Nat → Int) :
    GraphState → List GdsCall → List GdsCall × GraphState × Option GdsError
  | st, [] => ([], st, none)
  | st, c :: rest =>
    match callError st storeFail c with
    | some m => ([c], st, some { failedCall := c, message := m })
    | none =>
      let r := runCalls storeFail lv pr (execCall lv pr st c) rest
      (c :: r.1, r.2)

/-- The four statements of `GraphService.run_gds_pipeline`, in source
order: drop (failIfMissing = false), project over all nodes (`*`) and
TRANSACTION relationships retaining the `amount` relationship property,
Louvain writing `communityId`, PageRank with maxIterations 20 and
dampingFactor 0.85 writing `rankScore`. -/
def pipelineCalls (projectionName : String) : List GdsCall :=
  [GdsCall.drop projectionName false,
   GdsCall.project projectionName "*" "TRANSACTION" ["amount"],
   GdsCall.louvainWrite projectionName "communityId",
   GdsCall.pagerankWrite projectionName 20 (85 / 100) "rankScore"]

/-- `GraphService.run_gds_pipeline` (Python default projection name:
`fraud_graph`). -/
def runGdsPipeline (storeFail : GdsCall → Option String) (lv pr : Nat → Int)
    (st : GraphState) (projectionName : String) :
    List GdsCall × GraphState × Option GdsError :=
  runCalls storeFail lv pr st (pipelineCalls projectionName)

/-- The JSON payload of the POST /investigation/run-gds endpoint. -/
structure ApiResponse where
  status : String
  message : String
deriving Repr, DecidableEq

/-- The run-gds endpoint: try the pipeline; on success a success payload,
on any exception an error payload with `str(e)`. -/
def runGdsEndpoint (storeFail : GdsCall → Option String) (lv pr : Nat → Int)
    (st : GraphState) : ApiResponse × GraphState :=
  match runGdsPipeline storeFail lv pr st "fraud_graph" with
  | (_, st1, none) =>
    ({ status := "success", message := "GDS Pipeline executed successfully." }, st1)
  | (_, st1, some err) =>
    ({ status := "error", message := err.message }, st1)

/-! Concrete stores used to evaluate the operations at specific inputs. -/

/-- A no-failure store oracle. -/
def exNoFail : GdsCall → Option String := fun _ => none

/-- A store oracle failing exactly the Louvain write statement. -/
def exFailLouvain : GdsCall → Option String := fun c =>
  match c with
  | GdsCall.louvainWrite _ _ => some "store unavailable"
  | _ => none

/-- An abstract Louvain community assignment. -/
def exLv : Nat → Int := fun k => (k : Int) + 7

/-- An abstract PageRank score assignment. -/
def exPr : Nat → Int := fun k => (k : Int) + 3

/-- Two Client accounts joined by one TRANSACTED edge `t1` flagged as
ground-truth fraud. -/
def exFraudState : GraphState :=
  { nodes := [{ key := 0, labels := ["Client"], id := some "A",
                communityId := none, rankScore := none, pagerankScore := none },
              { key := 1, labels := ["Client"], id := some "B",
                communityId := none, rankScore := none, pagerankScore := none }]
    edges := [{ relType := "TRANSACTED", src := 0, dst := 1, id := none,
                txId := some "t1", timestamp := 0, amount := some 100,
                txType := some "PAYMENT", step := some 1,
                isFraud := some 1, ruleFlaggedFraud := none }]
    projections := [] }

/-- The empty store. -/
def exEmptyState : GraphState := { nodes := [], edges := [], projections := [] }

/-- Two Client accounts joined by one TRANSACTED edge `t1` with both fraud
flags unset. -/
def exUnsetState : GraphState :=
  { nodes := [{ key := 0, labels := ["Client"], id := some "A",
                communityId := none, rankScore := none, pagerankScore := none },
              { key := 1, labels := ["Client"], id := some "B",
                communityId := none, rankScore := none, pagerankScore := none }]
    edges := [{ relType := "TRANSACTED", src := 0, dst := 1, id := none,
                txId := some "t1", timestamp := 0, amount := some 100,
                txType := some "PAYMENT", step := some 1,
                isFraud := none, ruleFlaggedFraud := none }]
    projections := [] }

/-- An Account node for fan-in and cycle examples. -/
def mkAcct (k : Nat) : NodeRec :=
  { key := k, labels := ["Account"], id := some (toString k),
    communityId := none, rankScore := none, pagerankScore := none }

/-- A TRANSACTION edge for detector examples. -/
def mkTxn (i : Option String) (s d : Nat) (ts : Int) : EdgeRec :=
  { relType := "TRANSACTION", src := s, dst := d, id := i, txId := none,
    timestamp := ts, amount := some 10, txType := some "TRANSFER",
    step := some 1, isFraud := none, ruleFlaggedFraud := none }

/-- Receiver 100 funded by six distinct senders 1..6 within the hour ending
at the queried transaction `t1` (sender 1, timestamp 1000). -/
def exFan6 : GraphState :=
  { nodes := [mkAcct 100, mkAcct 1, mkAcct 2, mkAcct 3, mkAcct 4, mkAcct 5, mkAcct 6]
    edges := [mkTxn (some "t1") 1 100 1000,
              mkTxn none 2 100 950, mkTxn none 3 100 960,
              mkTxn none 4 100 970, mkTxn none 5 100 980,
              mkTxn none 6 100 990]
    projections := [] }

/-- Same receiver with only five distinct senders in the window. -/
def exFan5 : GraphState :=
  { nodes := [mkAcct 100, mkAcct 1, mkAcct 2, mkAcct 3, mkAcct 4, mkAcct 5]
    edges := [mkTxn (some "t1") 1 100 1000,
              mkTxn none 2 100 950, mkTxn none 3 100 960,
              mkTxn none 4 100 970, mkTxn none 5 100 980]
    projections := [] }

/-- Five distinct senders but six transactions: sender 2 pays twice inside
the window. -/
def exFanDup : GraphState :=
  { nodes := [mkAcct 100, mkAcct 1, mkAcct 2, mkAcct 3, mkAcct 4, mkAcct 5]
    edges := [mkTxn (some "t1") 1 100 1000,
              mkTxn none 2 100 950, mkTxn none 2 100 955,
              mkTxn none 3 100 960, mkTxn none 4 100 970,
              mkTxn none 5 100 980]
    projections := [] }

/-- Edges A(0)→B(1) (the queried transaction `t1`), B→C(2), C→A: a cycle of
length 3 through the transaction. -/
def exCycle : GraphState :=
  { nodes := [mkAcct 0, mkAcct 1, mkAcct 2]
    edges := [mkTxn (some "t1") 0 1 0, mkTxn none 1 2 1, mkTxn none 2 0 2]
    projections := [] }

/-- Edge A(0)→B(1) only: no return path. -/
def exNoCycle : GraphState :=
  { nodes := [mkAcct 0, mkAcct 1]
    edges := [mkTxn (some "t1") 0 1 0]
    projections := [] }

/-- Nodes shared by the detector-independence example: two Client-and-
Account endpoints plus five further Account senders. -/
def exIndepNodes : List NodeRec :=
  [{ key := 0, labels := ["Client", "Account"], id := some "A",
     communityId := none, rankScore := none, pagerankScore := none },
   { key := 1, labels := ["Client", "Account"], id := some "B",
     communityId := none, rankScore := none, pagerankScore := none },
   mkAcct 2, mkAcct 3, mkAcct 4, mkAcct 5, mkAcct 6]

/-- The TRANSACTED edge both independence states share. -/
def exIndepEdge : EdgeRec :=
  { relType := "TRANSACTED", src := 0, dst := 1, id := none,
    txId := some "t1", timestamp := 1000, amount := some 100,
    txType := some "PAYMENT", step := some 1,
    isFraud := some 0, ruleFlaggedFraud := none }

/-- Independence example, variant without any TRANSACTION edges: both
detectors return None. -/
def exIndepA : GraphState :=
  { nodes := exIndepNodes, edges := [exIndepEdge], projections := [] }

/-- Independence example, variant whose TRANSACTION edges make the fan-in
detector fire for `t1` (six distinct senders into node 1). -/
def exIndepB : GraphState :=
  { nodes := exIndepNodes
    edges := [exIndepEdge,
              mkTxn (some "t1") 0 1 1000,
              mkTxn none 2 1 950, mkTxn none 3 1 960,
              mkTxn none 4 1 970, mkTxn none 5 1 980,
              mkTxn none 6 1 990]
    projections := [] }

/-! Helper lemmas. -/

theorem getGdsScores_snd (st : GraphState) (txId : String) :
    (getGdsScores st txId).2 = st := by
  unfold getGdsScores
  cases gdsRecord st txId <;> rfl

theorem explainFraud_snd (st : GraphState) (txId : String) :
    (explainFraud st txId).2 = st := by
  unfold explainFraud
  cases h : lookupTransacted st txId with
  | none => rfl
  | some e =>
    simp only []
    split <;> simp [getGdsScores_snd]

theorem detectFanIn_snd (st : GraphState) (txId : String) (m w : Nat) :
    (detectFanIn st txId m w).2 = st := by
  unfold detectFanIn
  cases h : lookupTransaction st txId with
  | none => rfl
  | some e =>
    simp only []
    split <;> rfl

theorem detectCircularFlow_snd (st : GraphState) (txId : String) :
    (detectCircularFlow st txId).2 = st := by
  unfold detectCircularFlow
  cases h : lookupTransaction st txId with
  | none => rfl
  | some e =>
    cases hc : cyclePathLen st e.dst e.src <;> simp [hc]

theorem explainFraud_found_status (st : GraphState) (txId : String) (e : EdgeRec)
    (h : lookupTransacted st txId = some e) :
    (explainFraud st txId).1.status =
      if e.isFraud = some 1 ∨ e.ruleFlaggedFraud.getD false = true
      then "FRAUD" else "CLEARED" := by
  unfold explainFraud
  rw [h]
  by_cases hc : e.isFraud = some 1 ∨ e.ruleFlaggedFraud.getD false = true
  · have hb : ((mkTxRecord st e).isFraud == some 1 || (mkTxRecord st e).ruleFlaggedFraud) = true := by
      simp only [mkTxRecord, Bool.or_eq_true, beq_iff_eq]
      exact hc
    simp [hb, hc]
  · have hb : ((mkTxRecord st e).isFraud == some 1 || (mkTxRecord st e).ruleFlaggedFraud) = false := by
      simp only [mkTxRecord, Bool.or_eq_false_iff]
      push_neg at hc
      refine ⟨by simp [hc.1], ?_⟩
      cases hr : e.ruleFlaggedFraud.getD false
      · rfl
      · exact absurd hr hc.2
    simp [hb, hc]

theorem find?_filter_of_imp {α : Type} (l : List α) (p q : α → Bool)
    (h : ∀ x, p x = true → q x = true) :
    l.find? p = (l.filter q).find? p := by
  induction l with
  | nil => rfl
  | cons a t ih =>
    cases hp : p a with
    | true =>
      have hq := h a hp
      simp [List.find?_cons, List.filter_cons, hp, hq]
    | false =>
      cases hq : q a with
      | true => simp [List.find?_cons, List.filter_cons, hp, hq, ih]
      | false => simp [List.filter_cons, hp, hq, ih, List.find?]

theorem mem_stepRel (st : GraphState) (froms : List Nat) (a : Nat) :
    a ∈ stepRel st froms ↔
      ∃ t, t ∈ st.edges ∧ t.relType = "TRANSACTION" ∧ t.src ∈ froms ∧ t.dst = a := by
  simp only [stepRel, List.mem_dedup, List.mem_map, List.mem_filter,
    Bool.and_eq_true, beq_iff_eq, decide_eq_true_eq]
  constructor
  · rintro ⟨t, ⟨ht, hrel, hsrc⟩, hdst⟩
    exact ⟨t, ht, hrel, hsrc, hdst⟩
  · rintro ⟨t, ht, hrel, hsrc, hdst⟩
    exact ⟨t, ⟨ht, hrel, hsrc⟩, hdst⟩

theorem mem_reachAfter (st : GraphState) (b : Nat) :
    ∀ (L a : Nat), a ∈ reachAfter st b L ↔ Walk st b a L := by
  intro L
  induction L with
  | zero =>
    intro a
    simp only [reachAfter, List.mem_singleton]
    constructor
    · rintro rfl; exact Walk.nil _
    · intro w; cases w; rfl
  | succ k ih =>
    intro a
    simp only [reachAfter]
    rw [mem_stepRel]
    constructor
    · rintro ⟨t, ht, hrel, hsrc, hdst⟩
      have w : Walk st b t.src k := (ih t.src).mp hsrc
      have hs : transStep st t.src a := ⟨t, ht, hrel, rfl, hdst⟩
      exact Walk.snoc w hs
    · intro w
      cases w with
      | snoc w' hs =>
        obtain ⟨t, ht, hrel, hsrc, hdst⟩ := hs
        exact ⟨t, ht, hrel, hsrc ▸ (ih _).mpr w', hdst⟩

theorem cyclePathLen_some (st : GraphState) (b a l : Nat)
    (h : cyclePathLen st b a = some l) : 1 ≤ l ∧ l ≤ 4 ∧ Walk st b a l := by
  unfold cyclePathLen at h
  split_ifs at h with h1 h2 h3 h4 <;> injection h with h <;> subst h
  · exact ⟨by norm_num, by norm_num, (mem_reachAfter st b 1 a).mp h1⟩
  · exact ⟨by norm_num, by norm_num, (mem_reachAfter st b 2 a).mp h2⟩
  · exact ⟨by norm_num, by norm_num, (mem_reachAfter st b 3 a).mp h3⟩
  · exact ⟨by norm_num, by norm_num, (mem_reachAfter st b 4 a).mp h4⟩

theorem cyclePathLen_none (st : GraphState) (b a : Nat)
    (h : cyclePathLen st b a = none) :
    ∀ L, 1 ≤ L → L ≤ 4 → ¬ Walk st b a L := by
  unfold cyclePathLen at h
  split_ifs at h with h1 h2 h3 h4
  intro L hL1 hL4 w
  have hm := (mem_reachAfter st b L a).mpr w
  interval_cases L
  · exact h1 hm
  · exact h2 hm
  · exact h3 hm
  · exact h4 hm

theorem fanInSenderSet_card (st : GraphState) (r : Nat) (t0 : Int) (w : Nat) :
    (fanInSenderSet st r t0 w).card = (fanInSenders st r t0 w).length := by
  rw [fanInSenderSet, List.card_toFinset]
  rfl

theorem mem_fanInSenderSet (st : GraphState) (r : Nat) (t0 : Int) (w : Nat) (k : Nat) :
    k ∈ fanInSenderSet st r t0 w ↔
      ∃ t, t ∈ st.edges ∧ t.relType = "TRANSACTION" ∧ t.dst = r ∧
        nodeHasLabel st t.src "Account" = true ∧
        t0 - (w : Int) ≤ t.timestamp ∧ t.timestamp ≤ t0 ∧ t.src = k := by
  simp only [fanInSenderSet, List.mem_toFinset, List.mem_map, List.mem_filter,
    fanInWindowEdge, Bool.and_eq_true, beq_iff_eq, decide_eq_true_eq]
  constructor
  · rintro ⟨t, ⟨ht, ⟨⟨⟨hrel, hdst⟩, hlab⟩, hlo⟩, hhi⟩, hsrc⟩
    exact ⟨t, ht, hrel, hdst, hlab, hlo, hhi, hsrc⟩
  · rintro ⟨t, ht, hrel, hdst, hlab, hlo, hhi, hsrc⟩
    exact ⟨t, ⟨ht, ⟨⟨⟨hrel, hdst⟩, hlab⟩, hlo⟩, hhi⟩, hsrc⟩

/-! Claim theorems. -/

/-- C1: for every txId that matches a transaction in the store,
explain_fraud returns FRAUD if the ground-truth flag equals 1 or the
(coalesced) rule-engine flag is set, and CLEARED otherwise; the verdict is
one of those two, depends only on the two stored flags, and a repeated call
with no intervening write returns the identical result. -/
theorem claim_C1 (st : GraphState) (txId : String) (e : EdgeRec)
    (h : lookupTransacted st txId = some e) :
    ((explainFraud st txId).1.status =
      if e.isFraud = some 1 ∨ e.ruleFlaggedFraud.getD false = true
      then "FRAUD" else "CLEARED")
    ∧ ((explainFraud st txId).1.status = "FRAUD" ∨
       (explainFraud st txId).1.status = "CLEARED")
    ∧ (∀ (st2 : GraphState) (txId2 : String) (e2 : EdgeRec),
        lookupTransacted st2 txId2 = some e2 →
        e2.isFraud = e.isFraud → e2.ruleFlaggedFraud = e.ruleFlaggedFraud →
        (explainFraud st2 txId2).1.status = (explainFraud st txId).1.status)
    ∧ explainFraud (explainFraud st txId).2 txId = explainFraud st txId := by
  have h1 := explainFraud_found_status st txId e h
  refine ⟨h1, ?_, ?_, ?_⟩
  · rw [h1]
    split_ifs <;> simp
  · intro st2 tx2 e2 h2 hf hr
    rw [explainFraud_found_status st2 tx2 e2 h2, h1, hf, hr]
  · rw [explainFraud_snd]

/-- Witness for C1: on a store holding transaction t1 with isFraud = 1, the
verdict is FRAUD. -/
theorem claim_C1_w :
    lookupTransacted exFraudState "t1" =
      some { relType := "TRANSACTED", src := 0, dst := 1, id := none,
             txId := some "t1", timestamp := 0, amount := some 100,
             txType := some "PAYMENT", step := some 1,
             isFraud := some 1, ruleFlaggedFraud := none }
    ∧ (explainFraud exFraudState "t1").1.status = "FRAUD" := by
  refine ⟨by decide, ?_⟩
  have hmain := claim_C1 exFraudState "t1"
    { relType := "TRANSACTED", src := 0, dst := 1, id := none,
      txId := some "t1", timestamp := 0, amount := some 100,
      txType := some "PAYMENT", step := some 1,
      isFraud := some 1, ruleFlaggedFraud := none } (by decide)
  rw [hmain.1]
  simp

/-- C2: for every txId with no matching transaction, explain_fraud returns,
as a normal value, exactly the NOT_FOUND result with the fixed explanation
string and an empty score block, leaving the state unchanged. -/
theorem claim_C2 (st : GraphState) (txId : String)
    (h : lookupTransacted st txId = none) :
    explainFraud st txId =
      ({ status := "NOT_FOUND"
         explanation := "Transaction ID not found in graph."
         data := none
         gds_scores := none }, st) := by
  unfold explainFraud
  rw [h]

/-- Witness for C2: the empty store knows no transaction. -/
theorem claim_C2_w :
    lookupTransacted exEmptyState "missing" = none
    ∧ explainFraud exEmptyState "missing" =
      ({ status := "NOT_FOUND"
         explanation := "Transaction ID not found in graph."
         data := none
         gds_scores := none }, exEmptyState) :=
  ⟨rfl, claim_C2 exEmptyState "missing" rfl⟩

/-- C3: for every matched transaction, the fan-in detector alerts (carrying
the count and the window) exactly when the number of distinct senders of
TRANSACTION edges into the receiver with timestamp in the inclusive window
is strictly greater than min_senders; the counted set is characterized as
the set of distinct sender nodes, so several transactions from one sender
count once. -/
theorem claim_C3 (st : GraphState) (txId : String) (m w : Nat) (e : EdgeRec)
    (h : lookupTransaction st txId = some e) :
    ((detectFanIn st txId m w).1 =
      if m < (fanInSenderSet st e.dst e.timestamp w).card
      then some (fanInMsg (fanInSenderSet st e.dst e.timestamp w).card w)
      else none)
    ∧ (∀ k : Nat, k ∈ fanInSenderSet st e.dst e.timestamp w ↔
        ∃ t, t ∈ st.edges ∧ t.relType = "TRANSACTION" ∧ t.dst = e.dst ∧
          nodeHasLabel st t.src "Account" = true ∧
          e.timestamp - (w : Int) ≤ t.timestamp ∧ t.timestamp ≤ e.timestamp ∧
          t.src = k) := by
  constructor
  · simp only [detectFanIn, h]
    rw [fanInSenderSet_card]
    split_ifs <;> rfl
  · exact mem_fanInSenderSet st e.dst e.timestamp w

/-- Witness for C3: six distinct senders fire the detector with count 6;
five distinct senders do not; six transactions from only five distinct
senders do not (a repeated sender counts once). -/
theorem claim_C3_w :
    lookupTransaction exFan6 "t1" = some (mkTxn (some "t1") 1 100 1000)
    ∧ ((detectFanIn exFan6 "t1" 5 60).1 =
        if 5 < (fanInSenderSet exFan6 100 1000 60).card
        then some (fanInMsg (fanInSenderSet exFan6 100 1000 60).card 60)
        else none)
    ∧ (detectFanIn exFan6 "t1" 5 60).1 = some (fanInMsg 6 60)
    ∧ (detectFanIn exFan5 "t1" 5 60).1 = none
    ∧ (detectFanIn exFanDup "t1" 5 60).1 = none
    ∧ (fanInSenderSet exFanDup 100 1000 60).card = 5 := by
  refine ⟨by decide, ?_, by decide, by decide, by decide, by decide⟩
  exact (claim_C3 exFan6 "t1" 5 60 (mkTxn (some "t1") 1 100 1000) (by decide)).1

/-- C4: for every matched transaction a→b, the circular-flow detector
alerts exactly when a directed TRANSACTION walk of between 1 and 4 hops
leads from b back to a, and the alert reports cycle length = (length of
such a walk) + 1. -/
theorem claim_C4 (st : GraphState) (txId : String) (e : EdgeRec)
    (h : lookupTransaction st txId = some e) :
    ((detectCircularFlow st txId).1.isSome ↔
      ∃ L, 1 ≤ L ∧ L ≤ 4 ∧ Walk st e.dst e.src L)
    ∧ (∀ msg, (detectCircularFlow st txId).1 = some msg →
        ∃ L, 1 ≤ L ∧ L ≤ 4 ∧ Walk st e.dst e.src L ∧
          msg = circularMsg (L + 1)) := by
  have hred : (detectCircularFlow st txId).1 =
      (cyclePathLen st e.dst e.src).map (fun l => circularMsg (l + 1)) := by
    simp only [detectCircularFlow, h]
    cases cyclePathLen st e.dst e.src <;> rfl
  constructor
  · rw [hred]
    cases hc : cyclePathLen st e.dst e.src with
    | none =>
      simp only [Option.map_none', Option.isSome_none, Bool.false_eq_true,
        false_iff]
      rintro ⟨L, hL1, hL4, wlk⟩
      exact cyclePathLen_none st e.dst e.src hc L hL1 hL4 wlk
    | some l =>
      simp only [Option.map_some', Option.isSome_some, true_iff]
      obtain ⟨h1, h4, wlk⟩ := cyclePathLen_some st e.dst e.src l hc
      exact ⟨l, h1, h4, wlk⟩
  · intro msg hmsg
    rw [hred] at hmsg
    cases hc : cyclePathLen st e.dst e.src with
    | none => rw [hc] at hmsg; cases hmsg
    | some l =>
      rw [hc] at hmsg
      simp only [Option.map_some', Option.some.injEq] at hmsg
      obtain ⟨h1, h4, wlk⟩ := cyclePathLen_some st e.dst e.src l hc
      exact ⟨l, h1, h4, wlk, hmsg.symm⟩

/-- Witness for C4: with edges A→B (queried), B→C, C→A the detector fires
and reports cycle length 3; with A→B alone it stays silent. -/
theorem claim_C4_w :
    lookupTransaction exCycle "t1" = some (mkTxn (some "t1") 0 1 0)
    ∧ ((detectCircularFlow exCycle "t1").1.isSome ↔
        ∃ L, 1 ≤ L ∧ L ≤ 4 ∧ Walk exCycle 1 0 L)
    ∧ (detectCircularFlow exCycle "t1").1 = some (circularMsg 3)
    ∧ (detectCircularFlow exNoCycle "t1").1 = none := by
  refine ⟨by decide, ?_, by decide, by decide⟩
  exact (claim_C4 exCycle "t1" (mkTxn (some "t1") 0 1 0) (by decide)).1

/-- C5: evaluation at the failing input of the score-lookup bug.  The
pipeline run succeeds and writes rankScore = 3 and 4 to the two endpoints
of transaction t1, yet get_gds_scores afterwards reports null ranks (it
reads the never-written pagerankScore property); and before any run, with
t1 present but unscored, it returns an all-null block instead of the
sentinel (shown last for contrast). -/
theorem claim_C5 :
    (runGdsPipeline exNoFail exLv exPr exUnsetState "fraud_graph").2.2 = none
    ∧ (runGdsPipeline exNoFail exLv exPr exUnsetState "fraud_graph").2.1.nodes.map
        NodeRec.rankScore = [some 3, some 4]
    ∧ (getGdsScores
        (runGdsPipeline exNoFail exLv exPr exUnsetState "fraud_graph").2.1 "t1").1 =
      { sender_rank := GdsVal.null, sender_community := GdsVal.int 7,
        receiver_rank := GdsVal.null, receiver_community := GdsVal.int 8 }
    ∧ (getGdsScores exUnsetState "t1").1 =
      { sender_rank := GdsVal.null, sender_community := GdsVal.null,
        receiver_rank := GdsVal.null, receiver_community := GdsVal.null }
    ∧ gdsSentinel =
      { sender_rank := GdsVal.int 0, sender_community := GdsVal.str "N/A",
        receiver_rank := GdsVal.int 0, receiver_community := GdsVal.str "N/A" } := by
  refine ⟨by decide, by decide, by decide, by decide, rfl⟩

theorem nodes_write_both (lv pr : Nat → Int) (l : List NodeRec) :
    (l.map (fun nd => writeNodeProp "communityId" (lv nd.key) nd)).map
        (fun nd => writeNodeProp "rankScore" (pr nd.key) nd)
      = l.map (fun nd =>
          { nd with communityId := some (lv nd.key),
                    rankScore := some (pr nd.key) }) := by
  induction l with
  | nil => rfl
  | cons a t ih =>
    simp only [List.map_cons, ih]
    rfl

/-- C6: with no store failure, run_gds_pipeline issues exactly the four
statements in order — drop with failIfMissing = false (so a missing
projection, e.g. on a state whose projection list lacks the name, is not an
error), project over all nodes and TRANSACTION relationships retaining the
amount property, Louvain writing communityId, PageRank with maxIterations
20 and dampingFactor 0.85 writing rankScore — and the final state carries
each node's community and rank. -/
theorem claim_C6 (storeFail : GdsCall → Option String) (lv pr : Nat → Int)
    (st : GraphState) (pn : String)
    (hok : ∀ c ∈ pipelineCalls pn, storeFail c = none) :
    runGdsPipeline storeFail lv pr st pn =
      (pipelineCalls pn,
       { st with
           nodes := st.nodes.map (fun nd =>
             { nd with communityId := some (lv nd.key),
                       rankScore := some (pr nd.key) })
           projections := pn :: st.projections.erase pn },
       none)
    ∧ pipelineCalls pn =
      [GdsCall.drop pn false,
       GdsCall.project pn "*" "TRANSACTION" ["amount"],
       GdsCall.louvainWrite pn "communityId",
       GdsCall.pagerankWrite pn 20 (85 / 100) "rankScore"] := by
  have h1 : storeFail (GdsCall.drop pn false) = none :=
    hok _ (by simp [pipelineCalls])
  have h2 : storeFail (GdsCall.project pn "*" "TRANSACTION" ["amount"]) = none :=
    hok _ (by simp [pipelineCalls])
  have h3 : storeFail (GdsCall.louvainWrite pn "communityId") = none :=
    hok _ (by simp [pipelineCalls])
  have h4 : storeFail (GdsCall.pagerankWrite pn 20 (85 / 100) "rankScore") = none :=
    hok _ (by simp [pipelineCalls])
  refine ⟨?_, rfl⟩
  simp only [runGdsPipeline, pipelineCalls, runCalls, callError, h1, h2, h3, h4,
    execCall, Bool.false_and, if_neg, Bool.false_eq_true, not_false_iff]
  rw [nodes_write_both]

/-- Witness for C6: a concrete successful run on a store with no
pre-existing projection. -/
theorem claim_C6_w :
    (∀ c ∈ pipelineCalls "fraud_graph", exNoFail c = none)
    ∧ (runGdsPipeline exNoFail exLv exPr exFraudState "fraud_graph" =
        (pipelineCalls "fraud_graph",
         { exFraudState with
             nodes := exFraudState.nodes.map (fun nd =>
               { nd with communityId := some (exLv nd.key),
                         rankScore := some (exPr nd.key) })
             projections :=
               "fraud_graph" :: exFraudState.projections.erase "fraud_graph" },
         none)
       ∧ pipelineCalls "fraud_graph" =
         [GdsCall.drop "fraud_graph" false,
          GdsCall.project "fraud_graph" "*" "TRANSACTION" ["amount"],
          GdsCall.louvainWrite "fraud_graph" "communityId",
          GdsCall.pagerankWrite "fraud_graph" 20 (85 / 100) "rankScore"]) :=
  ⟨fun _ _ => rfl,
   claim_C6 exNoFail exLv exPr exFraudState "fraud_graph" (fun _ _ => rfl)⟩

theorem runCalls_spec (storeFail : GdsCall → Option String) (lv pr : Nat → Int) :
    ∀ (calls : List GdsCall) (st : GraphState),
      ((runCalls storeFail lv pr st calls).2.2 = none →
        (runCalls storeFail lv pr st calls).1 = calls)
      ∧ (∀ err, (runCalls storeFail lv pr st calls).2.2 = some err →
          ∃ k, k < calls.length ∧ calls[k]? = some err.failedCall ∧
            (runCalls storeFail lv pr st calls).1 = calls.take (k + 1)) := by
  intro calls
  induction calls with
  | nil =>
    intro st
    exact ⟨fun _ => rfl, fun err h => by cases h⟩
  | cons c rest ih =>
    intro st
    cases hc : callError st storeFail c with
    | some m =>
      constructor
      · intro h
        simp [runCalls, hc] at h
      · intro err h
        simp only [runCalls, hc, Option.some.injEq] at h
        subst h
        exact ⟨0, by simp, by simp, by simp [runCalls, hc]⟩
    | none =>
      have ihs := ih (execCall lv pr st c)
      constructor
      · intro h
        simp only [runCalls, hc] at h ⊢
        rw [ihs.1 h]
      · intro err h
        simp only [runCalls, hc] at h ⊢
        obtain ⟨k, hk, hget, htr⟩ := ihs.2 err h
        refine ⟨k + 1, by exact Nat.succ_lt_succ hk, ?_, ?_⟩
        · simpa using hget
        · rw [List.take_succ_cons, htr]

/-- C7: if a pipeline stage fails, the run stops there: the issued trace is
exactly the prefix of the four statements up to and including the failing
one (no later stage runs), the surfaced error names the failing statement
(the four are pairwise distinct, so the stage is identifiable), and the
run-gds endpoint surfaces it as an error payload carrying the message
rather than a success. -/
theorem claim_C7 (storeFail : GdsCall → Option String) (lv pr : Nat → Int)
    (st : GraphState) (pn : String) :
    (pipelineCalls pn).Nodup
    ∧ (∀ err, (runGdsPipeline storeFail lv pr st pn).2.2 = some err →
        ∃ k, k < (pipelineCalls pn).length
          ∧ (pipelineCalls pn)[k]? = some err.failedCall
          ∧ (runGdsPipeline storeFail lv pr st pn).1 = (pipelineCalls pn).take (k + 1))
    ∧ (∀ err, (runGdsPipeline storeFail lv pr st "fraud_graph").2.2 = some err →
        (runGdsEndpoint storeFail lv pr st).1 =
          { status := "error", message := err.message }) := by
  refine ⟨by simp [pipelineCalls], ?_, ?_⟩
  · intro err h
    exact (runCalls_spec storeFail lv pr (pipelineCalls pn) st).2 err h
  · intro err h
    unfold runGdsEndpoint
    rcases hp : runGdsPipeline storeFail lv pr st "fraud_graph" with ⟨tr, st1, oerr⟩
    rw [hp] at h
    simp only at h
    rw [h]

/-- Witness for C7: a store failure at the Louvain stage stops the run
after three statements and is surfaced by the endpoint. -/
theorem claim_C7_w :
    (runGdsPipeline exFailLouvain exLv exPr exFraudState "fraud_graph").2.2 =
      some { failedCall := GdsCall.louvainWrite "fraud_graph" "communityId",
             message := "store unavailable" }
    ∧ (∃ k, k < (pipelineCalls "fraud_graph").length
        ∧ (pipelineCalls "fraud_graph")[k]? =
            some (GdsCall.louvainWrite "fraud_graph" "communityId")
        ∧ (runGdsPipeline exFailLouvain exLv exPr exFraudState "fraud_graph").1 =
            (pipelineCalls "fraud_graph").take (k + 1))
    ∧ (runGdsEndpoint exFailLouvain exLv exPr exFraudState).1 =
        { status := "error", message := "store unavailable" } := by
  refine ⟨by decide, ?_, ?_⟩
  · exact (claim_C7 exFailLouvain exLv exPr exFraudState "fraud_graph").2.1
      { failedCall := GdsCall.louvainWrite "fraud_graph" "communityId",
        message := "store unavailable" } (by decide)
  · exact (claim_C7 exFailLouvain exLv exPr exFraudState "fraud_graph").2.2
      { failedCall := GdsCall.louvainWrite "fraud_graph" "communityId",
        message := "store unavailable" } (by decide)

/-- C8: the whole explanation path — fan-in detector, circular-flow
detector, score lookup, and explain_fraud — leaves the store unchanged for
every input, while the analytics pipeline does write (shown on a concrete
store whose nodes acquire community ids). -/
theorem claim_C8 :
    (∀ (st : GraphState) (txId : String) (m w : Nat),
      (detectFanIn st txId m w).2 = st
      ∧ (detectCircularFlow st txId).2 = st
      ∧ (getGdsScores st txId).2 = st
      ∧ (explainFraud st txId).2 = st)
    ∧ (runGdsPipeline exNoFail exLv exPr exFraudState "fraud_graph").2.1.nodes.map
        NodeRec.communityId = [some 7, some 8]
    ∧ exFraudState.nodes.map NodeRec.communityId = [none, none] :=
  ⟨fun st txId m w =>
    ⟨detectFanIn_snd st txId m w, detectCircularFlow_snd st txId,
     getGdsScores_snd st txId, explainFraud_snd st txId⟩,
   by decide, by decide⟩

/-- C9: explain_fraud never consults the pattern detectors: its result is
fixed by the nodes and the TRANSACTED edges alone, so two stores differing
arbitrarily in their TRANSACTION edges — and hence in any detector outcome
— yield identical explanations. -/
theorem claim_C9 (s1 s2 : GraphState) (txId : String)
    (hn : s1.nodes = s2.nodes)
    (he : s1.edges.filter (fun e => e.relType == "TRANSACTED") =
          s2.edges.filter (fun e => e.relType == "TRANSACTED")) :
    (explainFraud s1 txId).1 = (explainFraud s2 txId).1 := by
  have hfind : ∀ k, findNode s1 k = findNode s2 k := by
    intro k
    unfold findNode
    rw [hn]
  have hlab : ∀ k l, nodeHasLabel s1 k l = nodeHasLabel s2 k l := by
    intro k l
    unfold nodeHasLabel
    rw [hfind]
  have hpred : isTransactedFor s1 txId = isTransactedFor s2 txId := by
    funext e
    unfold isTransactedFor
    rw [hlab, hlab]
  have himp1 : ∀ x, isTransactedFor s1 txId x = true →
      (fun e => e.relType == "TRANSACTED") x = true := by
    intro x hp
    unfold isTransactedFor at hp
    simp only [Bool.and_eq_true] at hp
    exact hp.1.1.1
  have himp2 : ∀ x, isTransactedFor s2 txId x = true →
      (fun e => e.relType == "TRANSACTED") x = true := by
    intro x hp
    unfold isTransactedFor at hp
    simp only [Bool.and_eq_true] at hp
    exact hp.1.1.1
  have hl : lookupTransacted s1 txId = lookupTransacted s2 txId := by
    unfold lookupTransacted
    rw [find?_filter_of_imp s1.edges _ _ himp1, he, hpred,
      ← find?_filter_of_imp s2.edges _ _ himp2]
  have hmk : ∀ e, mkTxRecord s1 e = mkTxRecord s2 e := by
    intro e
    unfold mkTxRecord
    rw [hfind, hfind]
  have hg : gdsRecord s1 txId = gdsRecord s2 txId := by
    unfold gdsRecord
    rw [hl]
    cases lookupTransacted s2 txId with
    | none => rfl
    | some e => simp only [hfind]
  have hgds : (getGdsScores s1 txId).1 = (getGdsScores s2 txId).1 := by
    unfold getGdsScores
    rw [hg]
    cases gdsRecord s2 txId <;> rfl
  cases h2 : lookupTransacted s2 txId with
  | none =>
    have h1 : lookupTransacted s1 txId = none := hl.trans h2
    simp [explainFraud, h1, h2]
  | some e =>
    have h1 : lookupTransacted s1 txId = some e := hl.trans h2
    simp only [explainFraud, h1, h2, hmk e, hgds]
    split <;> rfl

/-- Witness for C9: two stores sharing nodes and the single TRANSACTED
edge but with detector-relevant TRANSACTION edges only in the second: the
fan-in outcomes differ, the explanations coincide. -/
theorem claim_C9_w :
    exIndepA.nodes = exIndepB.nodes
    ∧ exIndepA.edges.filter (fun e => e.relType == "TRANSACTED") =
        exIndepB.edges.filter (fun e => e.relType == "TRANSACTED")
    ∧ (explainFraud exIndepA "t1").1 = (explainFraud exIndepB "t1").1
    ∧ (detectFanIn exIndepA "t1" 5 60).1 = none
    ∧ (detectFanIn exIndepB "t1" 5 60).1 = some (fanInMsg 6 60) := by
  refine ⟨rfl, by decide, ?_, by decide, by decide⟩
  exact claim_C9 exIndepA exIndepB "t1" rfl (by decide)

/-- C10: a matched transaction whose isFraud flag is unset (null) and whose
ruleFlaggedFraud flag is unset is CLEARED: the null ground-truth flag is
not 1 and the absent rule flag coalesces to false. -/
theorem claim_C10 (st : GraphState) (txId : String) (e : EdgeRec)
    (h : lookupTransacted st txId = some e)
    (hf : e.isFraud = none) (hr : e.ruleFlaggedFraud = none) :
    (explainFraud st txId).1.status = "CLEARED" := by
  rw [explainFraud_found_status st txId e h, hf, hr]
  simp

/-- Witness for C10: transaction t1 with both flags unset is CLEARED. -/
theorem claim_C10_w :
    lookupTransacted exUnsetState "t1" =
      some { relType := "TRANSACTED", src := 0, dst := 1, id := none,
             txId := some "t1", timestamp := 0, amount := some 100,
             txType := some "PAYMENT", step := some 1,
             isFraud := none, ruleFlaggedFraud := none }
    ∧ (explainFraud exUnsetState "t1").1.status = "CLEARED" :=
  ⟨by decide,
   claim_C10 exUnsetState "t1"
     { relType := "TRANSACTED", src := 0, dst := 1, id := none,
       txId := some "t1", timestamp := 0, amount := some 100,
       txType := some "PAYMENT", step := some 1,
       isFraud := none, ruleFlaggedFraud := none } (by decide) rfl rfl⟩

end FraudGraph
